import Mathlib

/-!
Shallow embedding of the BookServiceRedisCache repository: the data model
(`app/models.py`, `app/schemas.py`), the CRUD layer (`app/crud.py`) and the
cache-aside read path of `list_books` (`app/routers/books.py`), together with
theorems settling the specification claims about them.
-/

namespace BookService

/-- JSON values at the abstraction level of Python's `json` module: the
serialized cache payload is modelled as the parse tree that `json.dumps`
renders and `json.loads` recovers. -/
inductive Json where
  | null : Json
  | bool (b : Bool) : Json
  | num (n : Int) : Json
  | str (s : String) : Json
  | arr (elems : List Json) : Json
  | obj (fields : List (String × Json)) : Json
deriving Repr

/-- Output schema `ReviewOut` from `app/schemas.py`: `content` (from
`ReviewBase`) then `id`, in pydantic field-declaration order. -/
structure ReviewOut where
  content : String
  id : Int
deriving Repr, DecidableEq

/-- Output schema `BookOut` from `app/schemas.py`: `title`, `author` (from
`BookBase`), then `id` and the nested `reviews`. -/
structure BookOut where
  title : String
  author : String
  id : Int
  reviews : List ReviewOut
deriving Repr, DecidableEq

/-- `ReviewOut.model_dump()` followed by JSON encoding: an object with the
schema's fields in declaration order. -/
def ReviewOut.toJson (r : ReviewOut) : Json :=
  .obj [("content", .str r.content), ("id", .num r.id)]

/-- `BookOut.model_dump()` followed by JSON encoding. -/
def BookOut.toJson (b : BookOut) : Json :=
  .obj [("title", .str b.title), ("author", .str b.author), ("id", .num b.id),
        ("reviews", .arr (b.reviews.map ReviewOut.toJson))]

/-- The serialized form of the whole listing: the JSON array `json.dumps`
receives in `list_books` (line 36 of `app/routers/books.py`). -/
def booksToJson (bs : List BookOut) : Json :=
  .arr (bs.map BookOut.toJson)

/-- Dictionary field lookup, as pydantic validation reads keys of a parsed
JSON object. -/
def lookupField : List (String × Json) → String → Option Json
  | [], _ => none
  | (k, v) :: rest, key => if k = key then some v else lookupField rest key

/-- Validation of a parsed JSON value against the `ReviewOut` schema:
requires an object with a string `content` and an integer `id`. -/
def ReviewOut.fromJson : Json → Option ReviewOut
  | .obj fs =>
    match lookupField fs "content", lookupField fs "id" with
    | some (.str c), some (.num i) => some ⟨c, i⟩
    | _, _ => none
  | _ => none

/-- Collects a list of optional values, failing if any is missing. -/
def allSome : List (Option α) → Option (List α)
  | [] => some []
  | none :: _ => none
  | some a :: rest => (allSome rest).map (a :: ·)

/-- Validation of a parsed JSON value as the `reviews` field: a JSON array
whose members each validate as `ReviewOut`. -/
def reviewsFromJson : Json → Option (List ReviewOut)
  | .arr xs => allSome (xs.map ReviewOut.fromJson)
  | _ => none

/-- Validation of a parsed JSON value against the `BookOut` schema. -/
def BookOut.fromJson : Json → Option BookOut
  | .obj fs =>
    match lookupField fs "title", lookupField fs "author", lookupField fs "id",
          lookupField fs "reviews" with
    | some (.str t), some (.str a), some (.num i), some rj =>
      match reviewsFromJson rj with
      | some rs => some ⟨t, a, i, rs⟩
      | none => none
    | _, _, _, _ => none
  | _ => none

/-- Validation of a cached payload as the full listing: a JSON array whose
members each validate as `BookOut` (the `response_model=list[schemas.BookOut]`
contract of the route). -/
def booksFromJson : Json → Option (List BookOut)
  | .arr xs => allSome (xs.map BookOut.fromJson)
  | _ => none

/-- Row of the `books` table (`app/models.py`). -/
structure BookRow where
  id : Int
  title : String
  author : String
deriving Repr, DecidableEq

/-- Row of the `reviews` table (`app/models.py`), with its `book_id`
foreign key. -/
structure ReviewRow where
  id : Int
  content : String
  book_id : Int
deriving Repr, DecidableEq

/-- The persistence store: the two tables of `app/models.py`. -/
structure DB where
  books : List BookRow
  reviews : List ReviewRow
deriving Repr, DecidableEq

/-- `crud.get_books`: `db.query(models.Book).all()`. -/
def get_books (db : DB) : List BookRow :=
  db.books

/-- `crud.get_reviews_by_book_id`:
`db.query(models.Review).filter(models.Review.book_id == book_id).all()`. -/
def get_reviews_by_book_id (db : DB) (book_id : Int) : List ReviewRow :=
  db.reviews.filter (fun r => r.book_id == book_id)

/-- `schemas.BookOut.model_validate(book)` with `from_attributes`: reads the
row's columns and the `reviews` relationship (the reviews whose `book_id`
matches the book's primary key). -/
def rowToBookOut (db : DB) (b : BookRow) : BookOut :=
  ⟨b.title, b.author, b.id,
   (db.reviews.filter (fun r => r.book_id == b.id)).map (fun r => ⟨r.content, r.id⟩)⟩

/-- The list `result` built on the miss path of `list_books` (line 31),
before serialization: every stored book validated through `BookOut`. -/
def dbBooksOut (db : DB) : List BookOut :=
  (get_books db).map (rowToBookOut db)

/-- The serialized snapshot of the store's current listing: what
`json.dumps(result)` produces on the miss path. -/
def dbSnapshot (db : DB) : Json :=
  booksToJson (dbBooksOut db)

/-- A Redis string value under the `all_books` key, partitioned by how
`list_books` can observe it: the empty (falsy) string, a non-empty string
that is not valid JSON, or a non-empty string whose JSON parse is `j`. -/
inductive CacheValue where
  | empty : CacheValue
  | invalid (s : String) : CacheValue
  | json (j : Json) : CacheValue
deriving Repr

/-- Python truthiness of the value, as tested by `if cached_books:` —
only the empty string is falsy. -/
def CacheValue.truthy : CacheValue → Bool
  | .empty => false
  | .invalid _ => true
  | .json _ => true

/-- `json.loads` on the value: raises (`none`) on the empty string and on
invalid JSON, returns the parse otherwise. -/
def json_loads : CacheValue → Option Json
  | .empty => none
  | .invalid _ => none
  | .json j => some j

/-- The cache backend's state at the fixed key `all_books`: absent, or a
value together with its remaining time-to-live in seconds. -/
structure Cache where
  entry : Option (CacheValue × Nat)
deriving Repr

/-- Combined state visible to the routes: the persistence store and the
cache backend. -/
structure State where
  db : DB
  cache : Cache
deriving Repr

/-- Outcome of `await redis_client.get(cache_key)`: a string value, `None`
(key absent), or a raised exception (connection refused, timeout,
protocol error). -/
inductive CacheReadOutcome where
  | value (v : CacheValue) : CacheReadOutcome
  | absent : CacheReadOutcome
  | error : CacheReadOutcome
deriving Repr

/-- Outcome of `await redis_client.setex(...)`: success, or a raised
exception. -/
inductive CacheWriteOutcome where
  | ok : CacheWriteOutcome
  | error : CacheWriteOutcome
deriving Repr

/-- What `list_books` produces: the value returned to the caller (as the
JSON the HTTP layer sends), the cache state afterwards, and whether the
persistence store's book query ran. -/
structure ListBooksResult where
  response : Json
  cacheAfter : Cache
  storeQueried : Bool
deriving Repr

/-- The miss path of `list_books` (lines 29-40): query the store, validate
each book through `BookOut`, serialize, attempt `setex(cache_key, 300, ...)`
with any write error swallowed, and return the authoritative result. -/
def list_books_miss (write : CacheWriteOutcome) (st : State) : ListBooksResult :=
  let result := dbSnapshot st.db
  let cacheAfter :=
    match write with
    | .ok => Cache.mk (some (CacheValue.json result, 300))
    | .error => st.cache
  ⟨result, cacheAfter, true⟩

/-- `list_books` from `app/routers/books.py` (lines 16-40): try the cache
read; on a truthy value whose `json.loads` succeeds return the parse at once
(cache hit, store not consulted); a falsy value, an absent key, a read
error or a parse error all fall through to the miss path — read and parse
errors are caught by the `except Exception` at lines 26-27. -/
def list_books (read : CacheReadOutcome) (write : CacheWriteOutcome)
    (st : State) : ListBooksResult :=
  match read with
  | .value v =>
    if v.truthy then
      match json_loads v with
      | some j => ⟨j, st.cache, false⟩
      | none => list_books_miss write st
    else
      list_books_miss write st
  | .absent => list_books_miss write st
  | .error => list_books_miss write st

/-- Primary-key assignment for a new `books` row: one more than the largest
id in use (the autoincrement behavior of the integer primary key). -/
def nextBookId (db : DB) : Int :=
  (db.books.map (·.id)).foldl max 0 + 1

/-- `crud.create_book`: construct the row from the request fields, insert
and commit; returns the refreshed row with its store-assigned id. -/
def create_book (db : DB) (title author : String) : DB × BookRow :=
  let row : BookRow := ⟨nextBookId db, title, author⟩
  (⟨db.books ++ [row], db.reviews⟩, row)

/-- The `add_book` route (lines 43-45): a direct store write; the cache is
never touched. Returns the new state and the created book validated through
`BookOut`. -/
def add_book (st : State) (title author : String) : State × BookOut :=
  let p := create_book st.db title author
  (⟨p.1, st.cache⟩, rowToBookOut p.1 p.2)

/-- Store-side failures surfaced to the caller as request failures. -/
inductive StoreError where
  | constraintViolation : StoreError
deriving Repr, DecidableEq

/-- Primary-key assignment for a new `reviews` row. -/
def nextReviewId (db : DB) : Int :=
  (db.reviews.map (·.id)).foldl max 0 + 1

/-- `crud.add_review`: insert a review row carrying the given `book_id` and
commit. Modelled from the spec: the engine configuration in `app/database.py`
is not under `src/`; per the spec the Persistence Store "owns referential
integrity", so the commit of a review whose `book_id` references no existing
book fails with a constraint violation and the transaction leaves the store
unchanged. -/
def add_review (db : DB) (book_id : Int) (content : String) :
    Except StoreError (DB × ReviewRow) :=
  if db.books.any (fun b => b.id == book_id) then
    let row : ReviewRow := ⟨nextReviewId db, content, book_id⟩
    .ok (⟨db.books, db.reviews ++ [row]⟩, row)
  else
    .error .constraintViolation

/-- The `add_review` route (lines 51-53): a direct store write with no
exception handler, so a store error propagates to the HTTP layer; the cache
is never touched. On failure the state is unchanged. -/
def add_review_route (st : State) (book_id : Int) (content : String) :
    State × Except StoreError ReviewRow :=
  match add_review st.db book_id content with
  | .ok p => (⟨p.1, st.cache⟩, .ok p.2)
  | .error e => (st, .error e)

/-! ## Helper lemmas -/

lemma reviewOut_fromJson_toJson (r : ReviewOut) :
    ReviewOut.fromJson r.toJson = some r := rfl

lemma reviewsFromJson_toJson (rs : List ReviewOut) :
    reviewsFromJson (.arr (rs.map ReviewOut.toJson)) = some rs := by
  induction rs with
  | nil => rfl
  | cons r rest ih =>
    simpa [reviewsFromJson, allSome, reviewOut_fromJson_toJson] using ih

lemma bookOut_fromJson_toJson (b : BookOut) :
    BookOut.fromJson b.toJson = some b := by
  cases b with
  | mk t a i rs =>
    simp [BookOut.toJson, BookOut.fromJson, lookupField, reviewsFromJson_toJson]

lemma booksFromJson_toJson (bs : List BookOut) :
    booksFromJson (booksToJson bs) = some bs := by
  induction bs with
  | nil => rfl
  | cons b rest ih =>
    simpa [booksFromJson, booksToJson, allSome, bookOut_fromJson_toJson] using ih

lemma base_le_foldl_max : ∀ (l : List Int) (a : Int), a ≤ l.foldl max a
  | [], _ => le_refl _
  | b :: t, a => le_trans (le_max_left a b) (base_le_foldl_max t (max a b))

lemma mem_le_foldl_max : ∀ (l : List Int) (a x : Int), x ∈ l → x ≤ l.foldl max a
  | [], _, x, h => absurd h (List.not_mem_nil x)
  | b :: t, a, x, h => by
    have hfold : (b :: t).foldl max a = t.foldl max (max a b) := rfl
    rw [hfold]
    rcases List.mem_cons.mp h with h1 | h2
    · subst h1
      exact le_trans (le_max_right a x) (base_le_foldl_max t (max a x))
    · exact mem_le_foldl_max t (max a b) x h2

lemma nextBookId_not_mem (db : DB) : nextBookId db ∉ db.books.map (·.id) := by
  intro hmem
  have h := mem_le_foldl_max (db.books.map (·.id)) 0 _ hmem
  unfold nextBookId at h
  omega

lemma dbBooksOut_ids (db : DB) :
    (dbBooksOut db).map (·.id) = db.books.map (·.id) := by
  simp [dbBooksOut, get_books, rowToBookOut, List.map_map]

/-- A concrete state used by the witnesses: one book with one review, the
cache key absent. -/
def st0 : State :=
  ⟨⟨[⟨1, "Dune", "Frank Herbert"⟩], [⟨1, "a classic", 1⟩]⟩, ⟨none⟩⟩

/-! ## Claim theorems -/

/-- C1: when the cache read of `all_books` succeeds with a present (truthy)
serialized snapshot of a book collection, `list_books` returns exactly the
deserialization of that snapshot (which validates back to the same records),
does not query the persistence store, and leaves the cache unchanged. -/
theorem cache_hit_returns_snapshot (bs : List BookOut) (w : CacheWriteOutcome)
    (st : State) :
    (list_books (.value (.json (booksToJson bs))) w st).response = booksToJson bs ∧
    (list_books (.value (.json (booksToJson bs))) w st).storeQueried = false ∧
    (list_books (.value (.json (booksToJson bs))) w st).cacheAfter = st.cache ∧
    booksFromJson (list_books (.value (.json (booksToJson bs))) w st).response
      = some bs :=
  ⟨rfl, rfl, rfl, booksFromJson_toJson bs⟩

/-- C2: when the cache read raises any error, `list_books` does not surface
it: the execution coincides with the miss path, queries the store, and
returns the store's current collection. -/
theorem cache_error_transparent (w : CacheWriteOutcome) (st : State) :
    list_books .error w st = list_books .absent w st ∧
    (list_books .error w st).response = dbSnapshot st.db ∧
    (list_books .error w st).storeQueried = true :=
  ⟨rfl, rfl, rfl⟩

/-- C3: on any execution of `list_books` that takes the miss path and whose
cache write succeeds, the `all_books` key afterwards holds the serialized
snapshot of the value returned to the caller, with expiry exactly 300
seconds. -/
theorem miss_write_populates_cache (read : CacheReadOutcome) (st : State)
    (h : (list_books read .ok st).storeQueried = true) :
    (list_books read .ok st).cacheAfter.entry =
      some (CacheValue.json ((list_books read .ok st).response), 300) ∧
    (list_books read .ok st).response = dbSnapshot st.db := by
  cases read with
  | value v =>
    cases v with
    | empty => exact ⟨rfl, rfl⟩
    | invalid s => exact ⟨rfl, rfl⟩
    | json j => simp [list_books, CacheValue.truthy, json_loads] at h
  | absent => exact ⟨rfl, rfl⟩
  | error => exact ⟨rfl, rfl⟩

theorem miss_write_populates_cache_witness :
    (list_books .absent .ok st0).cacheAfter.entry =
      some (CacheValue.json ((list_books .absent .ok st0).response), 300) ∧
    (list_books .absent .ok st0).response = dbSnapshot st0.db :=
  miss_write_populates_cache .absent st0 rfl

/-- C4: on the miss path the value returned to the caller is the
authoritative store result and is the same whether the write-back succeeds
or raises; the write-back error is swallowed (the operation still returns
normally). -/
theorem writeback_error_invisible (read : CacheReadOutcome) (st : State)
    (h : (list_books read .ok st).storeQueried = true) :
    (list_books read .ok st).response = (list_books read .error st).response ∧
    (list_books read .ok st).response = dbSnapshot st.db := by
  cases read with
  | value v =>
    cases v with
    | empty => exact ⟨rfl, rfl⟩
    | invalid s => exact ⟨rfl, rfl⟩
    | json j => simp [list_books, CacheValue.truthy, json_loads] at h
  | absent => exact ⟨rfl, rfl⟩
  | error => exact ⟨rfl, rfl⟩

theorem writeback_error_invisible_witness :
    (list_books .error .ok st0).response = (list_books .error .error st0).response ∧
    (list_books .error .ok st0).response = dbSnapshot st0.db :=
  writeback_error_invisible .error st0 rfl

/-- C5: `add_book` and `add_review` write only to the store and leave the
cache entry unchanged; a hit on an unexpired snapshot of the pre-write
collection still returns that snapshot, and the freshly created book's id
does not occur in it. -/
theorem writes_leave_cache_unchanged (st : State) (t a : String) (bid : Int)
    (c : String) (w : CacheWriteOutcome) :
    ((add_book st t a).1).cache = st.cache ∧
    ((add_review_route st bid c).1).cache = st.cache ∧
    (list_books (.value (.json (dbSnapshot st.db))) w ((add_book st t a).1)).response
      = dbSnapshot st.db ∧
    ((add_book st t a).2).id ∉ (dbBooksOut st.db).map (·.id) := by
  refine ⟨rfl, ?_, rfl, ?_⟩
  · unfold add_review_route
    cases add_review st.db bid c with
    | ok p => rfl
    | error e => rfl
  · have hid : ((add_book st t a).2).id = nextBookId st.db := rfl
    rw [hid, dbBooksOut_ids]
    exact nextBookId_not_mem st.db

/-- C6: creating a review whose `book_id` references no existing book fails
with a store constraint violation surfaced to the caller, and leaves the
store unchanged (it does not silently succeed). -/
theorem review_fk_violation_surfaces (st : State) (bid : Int) (c : String)
    (h : st.db.books.any (fun b => b.id == bid) = false) :
    (add_review_route st bid c).2 = .error .constraintViolation ∧
    (add_review_route st bid c).1 = st := by
  constructor <;> simp [add_review_route, add_review, h]

theorem review_fk_violation_surfaces_witness :
    (add_review_route st0 2 "no such book").2 = .error .constraintViolation ∧
    (add_review_route st0 2 "no such book").1 = st0 :=
  review_fk_violation_surfaces st0 2 "no such book" rfl

/-- C7: serializing a collection of books with nested reviews to the cache
value and validating it back reproduces field-equal records: every book's
title, author, id and every nested review's content and id are preserved. -/
theorem serialize_roundtrip (bs : List BookOut) :
    booksFromJson (booksToJson bs) = some bs :=
  booksFromJson_toJson bs

/-- C8: a present cache value that fails to parse as JSON does not make
`list_books` raise: the parse error is caught by the same handler as cache
errors and the execution coincides with the miss path, returning the
store's collection. -/
theorem invalid_payload_falls_back (s : String) (w : CacheWriteOutcome)
    (st : State) :
    list_books (.value (.invalid s)) w st = list_books .absent w st ∧
    (list_books (.value (.invalid s)) w st).response = dbSnapshot st.db ∧
    (list_books (.value (.invalid s)) w st).storeQueried = true :=
  ⟨rfl, rfl, rfl⟩

/-- C9: a successful cache read yielding the empty (falsy) string is treated
as a miss: `list_books` queries the store and returns the store's
collection, not the cached empty value. -/
theorem empty_value_treated_as_miss (w : CacheWriteOutcome) (st : State) :
    list_books (.value .empty) w st = list_books .absent w st ∧
    (list_books (.value .empty) w st).response = dbSnapshot st.db ∧
    (list_books (.value .empty) w st).storeQueried = true :=
  ⟨rfl, rfl, rfl⟩

/-- C10: `get_reviews_by_book_id` is total for every `book_id` and returns
exactly the reviews whose `book_id` equals the argument; it never consults
the books table, so a nonexistent book yields the (possibly empty) filtered
list rather than an error. -/
theorem get_reviews_characterization (bs : List BookRow) (rs : List ReviewRow)
    (book_id : Int) (r : ReviewRow) :
    (r ∈ get_reviews_by_book_id ⟨bs, rs⟩ book_id ↔
      r ∈ rs ∧ r.book_id = book_id) ∧
    get_reviews_by_book_id ⟨bs, rs⟩ book_id
      = get_reviews_by_book_id ⟨[], rs⟩ book_id := by
  constructor
  · simp [get_reviews_by_book_id, List.mem_filter]
  · rfl

end BookService
